import Mathlib

/-!
Shallow embedding of src/frontend/popup.js: the popup UI controller of the
smart_page_ai browser extension.  The DOM, localStorage and fetch are modelled
by an explicit state record and an event-driven step function; each promise
chain of the source is split into a synchronous start (up to the fetch call)
and a response step (the then/catch/finally callbacks), so that interleavings
of in-flight requests can be expressed.  Host-browser behaviour that the code
relies on is made explicit: a click on a disabled button is not delivered, a
hidden quick-prompt container cannot be clicked, and a disabled input cannot
receive typing.
-/

/-- A chat-history record, as pushed by popup.js lines 82 and 106:
the object literals are of the form with fields named type and content. -/
structure Msg where
  type : String
  content : String
deriving DecidableEq, Repr

/-- Who a displayed chat bubble belongs to (addMessageToChat sender argument). -/
inductive Sender where
  | user
  | ai
deriving DecidableEq, Repr

/-- One message div in the chat window.  The id models DOM-node identity, so
that thinkingMessage.remove() can delete exactly the div it created. -/
structure ChatItem where
  id : Nat
  sender : Sender
  text : String
deriving DecidableEq, Repr

/-- JSON values, enough for the request bodies popup.js serialises. -/
inductive Json where
  | str (s : String)
  | arr (xs : List Json)
  | obj (fields : List (String × Json))

/-- JSON.stringify of a history record: the object literal of popup.js
pushes fields named type and content, so those are the serialised keys. -/
def Msg.toJson (m : Msg) : Json :=
  Json.obj [("type", Json.str m.type), ("content", Json.str m.content)]

/-- The keys of a JSON object (empty for non-objects). -/
def jsonKeys : Json → List String
  | Json.obj fields => fields.map Prod.fst
  | _ => []

/-- An HTTP request issued by fetch: URL and JSON body. -/
structure Request where
  url : String
  body : Json

/-- The full mutable state the popup code touches. -/
structure PopupState where
  chatHistory : List Msg
  chatWindow : List ChatItem
  nextId : Nat
  askButtonDisabled : Bool
  questionInputDisabled : Bool
  processButtonDisabled : Bool
  processLoading : Bool
  questionInputValue : String
  quickPromptsVisible : Bool
  statusClass : String
  statusText : String
  pendingAsks : List Nat
  pendingProcs : Nat
  requests : List Request

/-- updateStatus (popup.js lines 62-68): sets the badge class and text. -/
def updateStatus (status text : String) (s : PopupState) : PopupState :=
  { s with statusClass := "status-badge " ++ status, statusText := text }

/-- addMessageToChat (popup.js lines 8-55): appends a message div to the chat
window and returns it (here: its id).  Markdown rendering, the copy button and
scrolling are presentation details outside the model. -/
def addMessageToChat (sender : Sender) (text : String) (s : PopupState) :
    PopupState × Nat :=
  ({ s with
      chatWindow := s.chatWindow ++ [⟨s.nextId, sender, text⟩],
      nextId := s.nextId + 1 },
    s.nextId)

/-- The base URL all fetches use. -/
def baseUrl : String := "http://127.0.0.1:5000"

/-- JavaScript String.prototype.trim: strip leading and trailing whitespace
(used on the question input by the ask-click listener, popup.js line 236). -/
def jsTrim (s : String) : String :=
  String.mk (((s.data.dropWhile Char.isWhitespace).reverse.dropWhile
    Char.isWhitespace).reverse)

/-- sendQuestion (popup.js lines 74-98), the synchronous part: guard on an
empty (falsy) question, append the user message to the window and the history,
clear and disable the input controls, show the Thinking indicator, and issue
the POST /ask fetch whose body serialises the question and the history as it
stands after the push. -/
def sendQuestion (question : String) (s : PopupState) : PopupState :=
  if question = "" then s
  else
    let s1 := (addMessageToChat Sender.user question s).1
    let s2 := { s1 with chatHistory := s1.chatHistory ++ [Msg.mk "human" question] }
    let s3 := { s2 with
      questionInputValue := "",
      askButtonDisabled := true,
      questionInputDisabled := true }
    let a := addMessageToChat Sender.ai "Thinking..." s3
    { a.1 with
      pendingAsks := a.1.pendingAsks ++ [a.2],
      requests := a.1.requests ++
        [⟨baseUrl ++ "/ask",
          Json.obj [("question", Json.str question),
                    ("history", Json.arr (a.1.chatHistory.map Msg.toJson))]⟩] }

/-- Outcome of a POST /ask request, as popup.js interprets the response:
a JSON body whose error field is set, a JSON body read as an answer, or a
rejected fetch (network failure or unparsable body). -/
inductive AskOutcome where
  | answer (ans : String)
  | backendError (err : String)
  | networkError (msg : String)
deriving DecidableEq, Repr

/-- The then/catch/finally callbacks of sendQuestion (popup.js lines 99-117)
for the request whose Thinking div has id tid: remove the Thinking div, show
the answer or the error message (pushing the answer to history only on
success), then re-enable the ask button and the input. -/
def sendQuestionResponse (o : AskOutcome) (tid : Nat) (s : PopupState) :
    PopupState :=
  let s1 := { s with chatWindow := s.chatWindow.filter (fun c => c.id ≠ tid) }
  let s2 :=
    match o with
    | AskOutcome.backendError err =>
        (addMessageToChat Sender.ai ("❌ Error: " ++ err) s1).1
    | AskOutcome.answer ans =>
        let t := (addMessageToChat Sender.ai ans s1).1
        { t with chatHistory := t.chatHistory ++ [Msg.mk "ai" ans] }
    | AskOutcome.networkError msg =>
        (addMessageToChat Sender.ai ("❌ Error: " ++ msg) s1).1
  { s2 with askButtonDisabled := false, questionInputDisabled := false }

/-- showError (popup.js lines 227-232): error badge, error chat message,
re-enable the process button. -/
def showError (errorMessage : String) (s : PopupState) : PopupState :=
  let s1 := updateStatus "error" ("Error: " ++ errorMessage) s
  let s2 := (addMessageToChat Sender.ai ("❌ Error: " ++ errorMessage) s1).1
  { s2 with processButtonDisabled := false, processLoading := false }

/-- fetchAndProcess (popup.js lines 198-203), the synchronous part: issue the
POST and leave it pending. -/
def fetchAndProcess (url : String) (body : Json) (s : PopupState) : PopupState :=
  { s with
    requests := s.requests ++ [⟨url, body⟩],
    pendingProcs := s.pendingProcs + 1 }

/-- Outcome of a process_* request, as fetchAndProcess interprets it. -/
inductive ProcOutcome where
  | ok
  | backendError (err : String)
  | networkError (msg : String)
deriving DecidableEq, Repr

/-- The then/catch/finally callbacks of fetchAndProcess (popup.js lines
204-223): on success set the ready badge, re-enable ask controls, show quick
prompts, clear the window and confirm; on a reported or network error call
showError; finally re-enable the process button. -/
def fetchAndProcessResponse (o : ProcOutcome) (s : PopupState) : PopupState :=
  let s1 :=
    match o with
    | ProcOutcome.backendError err => showError err s
    | ProcOutcome.ok =>
        let t := updateStatus "ready" "Ready to answer questions!" s
        let t2 := { t with
          askButtonDisabled := false,
          questionInputDisabled := false,
          quickPromptsVisible := true,
          chatWindow := [] }
        (addMessageToChat Sender.ai
          "✅ I've finished reading. What would you like to know?" t2).1
    | ProcOutcome.networkError msg =>
        showError ("Cannot connect to backend server. " ++ msg) s
  { s1 with processButtonDisabled := false, processLoading := false }

/-- What the active tab turns out to be.  This abstracts the host-browser
steps of the process-button handler (chrome.tabs.query, URL parsing via
URLSearchParams, chrome.scripting.executeScript): a PDF URL, a YouTube watch
page with its v parameter (none when absent, and the empty string is falsy in
the source guard), or an ordinary page whose HTML extraction succeeded (some
html) or failed (none: chrome.runtime.lastError or missing results). -/
inductive PageInfo where
  | pdf (url : String)
  | youtube (videoId : Option String)
  | webpage (result : Option String)
deriving DecidableEq, Repr

/-- The process-button click listener (popup.js lines 150-195): processing
badge, disable all three controls, hide quick prompts, clear window and
history, announce, then dispatch on the page kind, either issuing the matching
fetch or reporting the error. -/
def processClickRun (page : PageInfo) (s : PopupState) : PopupState :=
  let s1 := updateStatus "processing" "Processing..." s
  let s2 := { s1 with
    processButtonDisabled := true,
    processLoading := true,
    askButtonDisabled := true,
    questionInputDisabled := true,
    quickPromptsVisible := false,
    chatWindow := [],
    chatHistory := [] }
  let s3 := (addMessageToChat Sender.ai "🔍 Figuring out what to read..." s2).1
  match page with
  | PageInfo.pdf url =>
      let t := (addMessageToChat Sender.ai
        "📄 Found a PDF! Fetching and reading..." s3).1
      fetchAndProcess (baseUrl ++ "/process_pdf")
        (Json.obj [("pdf_url", Json.str url)]) t
  | PageInfo.youtube (some v) =>
      if v = "" then showError "Could not find YouTube video ID" s3
      else
        let t := (addMessageToChat Sender.ai
          "🎥 Found a YouTube video! Fetching transcript..." s3).1
        fetchAndProcess (baseUrl ++ "/process_youtube")
          (Json.obj [("videoId", Json.str v)]) t
  | PageInfo.youtube none => showError "Could not find YouTube video ID" s3
  | PageInfo.webpage r =>
      let t := (addMessageToChat Sender.ai "🌐 Reading the webpage content..." s3).1
      match r with
      | some html =>
          fetchAndProcess (baseUrl ++ "/process_webpage")
            (Json.obj [("content", Json.str html)]) t
      | none => showError "Could not access this page" t

/-- User and network events the popup reacts to. -/
inductive Event where
  | setInput (text : String)
  | askClick
  | enterKey
  | quickPrompt (prompt : String)
  | processClick (page : PageInfo)
  | askResponse (o : AskOutcome)
  | procResponse (o : ProcOutcome)
deriving Repr

/-- One event step.  Browser delivery rules made explicit: clicks on disabled
buttons and typing into a disabled input are dropped, and the quick-prompt
buttons are unreachable while their container has display none.  The Enter
keypress listener (popup.js lines 241-245) forwards to the ask-click listener
only when the ask button is enabled; the ask-click listener (lines 235-238)
trims the input; a quick-prompt click (lines 248-253) sends the data-prompt
attribute verbatim (the empty string standing for a falsy missing attribute).
Responses resolve the oldest matching pending request. -/
def step (e : Event) (s : PopupState) : PopupState :=
  match e with
  | Event.setInput t =>
      if s.questionInputDisabled then s else { s with questionInputValue := t }
  | Event.askClick =>
      if s.askButtonDisabled then s
      else sendQuestion (jsTrim s.questionInputValue) s
  | Event.enterKey =>
      if s.askButtonDisabled then s
      else sendQuestion (jsTrim s.questionInputValue) s
  | Event.quickPrompt p =>
      if s.quickPromptsVisible then sendQuestion p s else s
  | Event.processClick page =>
      if s.processButtonDisabled then s else processClickRun page s
  | Event.askResponse o =>
      match s.pendingAsks with
      | [] => s
      | tid :: rest => sendQuestionResponse o tid { s with pendingAsks := rest }
  | Event.procResponse o =>
      match s.pendingProcs with
      | 0 => s
      | n + 1 => fetchAndProcessResponse o { s with pendingProcs := n }

/-- A neutral popup state to instantiate theorems at: empty transcript, all
controls enabled, nothing pending. -/
def initState : PopupState :=
  { chatHistory := []
    chatWindow := []
    nextId := 0
    askButtonDisabled := false
    questionInputDisabled := false
    processButtonDisabled := false
    processLoading := false
    questionInputValue := ""
    quickPromptsVisible := true
    statusClass := "status-badge idle"
    statusText := "Idle"
    pendingAsks := []
    pendingProcs := 0
    requests := [] }

/-- Run a list of events from a state. -/
def run (events : List Event) (s : PopupState) : PopupState :=
  events.foldl (fun acc e => step e acc) s

/-- Number of requests currently in flight. -/
def inFlight (s : PopupState) : Nat :=
  s.pendingAsks.length + s.pendingProcs

/- Theme handling (popup.js lines 130-147), modelled separately: the current
data-theme attribute together with the localStorage slot. -/

/-- The theme state: the data-theme attribute and the persisted slot. -/
structure ThemeState where
  currentTheme : String
  storedTheme : Option String
deriving DecidableEq, Repr

/-- localStorage.getItem of theme or-else light (line 131); the empty string
is falsy in JS, so it too falls back to light. -/
def loadTheme (stored : Option String) : String :=
  match stored with
  | none => "light"
  | some t => if t = "" then "light" else t

/-- Startup (popup.js lines 130-133): load the saved theme and apply it. -/
def themeStartup (stored : Option String) : ThemeState :=
  { currentTheme := loadTheme stored, storedTheme := stored }

/-- The theme-toggle click listener (popup.js lines 136-142): flip light to
dark and anything else to light, apply and persist. -/
def themeToggle (s : ThemeState) : ThemeState :=
  let newTheme := if s.currentTheme = "light" then "dark" else "light"
  { currentTheme := newTheme, storedTheme := some newTheme }

/-- n successive toggle clicks. -/
def themeAfterToggles : Nat → ThemeState → ThemeState
  | 0, s => s
  | n + 1, s => themeAfterToggles n (themeToggle s)

/-- The invariant the data-model section of the spec asserts about history
records, up to the contested field name: every stored record marks its speaker
as human or ai. -/
def historyWellFormed (s : PopupState) : Prop :=
  ∀ m ∈ s.chatHistory, m.type = "human" ∨ m.type = "ai"

/-- The wire formats of section 6 of the spec, as the code produces them:
POST /ask with question and serialised history, POST /process_pdf with
pdf_url, POST /process_youtube with videoId, POST /process_webpage with
content, all under the fixed base URL. -/
def goodRequest (r : Request) : Prop :=
  (∃ (q : String) (hist : List Msg), r = ⟨baseUrl ++ "/ask",
      Json.obj [("question", Json.str q),
                ("history", Json.arr (hist.map Msg.toJson))]⟩)
  ∨ (∃ u, r = ⟨baseUrl ++ "/process_pdf", Json.obj [("pdf_url", Json.str u)]⟩)
  ∨ (∃ v, r = ⟨baseUrl ++ "/process_youtube", Json.obj [("videoId", Json.str v)]⟩)
  ∨ (∃ c, r = ⟨baseUrl ++ "/process_webpage", Json.obj [("content", Json.str c)]⟩)

/-- Page kinds for which the process-button handler reaches a fetch call
(rather than bailing out through showError). -/
def pageStartsFetch : PageInfo → Bool
  | PageInfo.pdf _ => true
  | PageInfo.youtube (some v) => !(v = "")
  | PageInfo.youtube none => false
  | PageInfo.webpage (some _) => true
  | PageInfo.webpage none => false

/-! Helper lemmas about single operations. -/

lemma sendQuestion_history (q : String) (s : PopupState) :
    (sendQuestion q s).chatHistory =
      s.chatHistory ++ (if q = "" then [] else [Msg.mk "human" q]) := by
  by_cases h : q = "" <;> simp [sendQuestion, h, addMessageToChat]

lemma sendQuestionResponse_history (o : AskOutcome) (tid : Nat) (s : PopupState) :
    (sendQuestionResponse o tid s).chatHistory =
      s.chatHistory ++
        (match o with
         | AskOutcome.answer a => [Msg.mk "ai" a]
         | _ => []) := by
  cases o <;> simp [sendQuestionResponse, addMessageToChat]

lemma processClickRun_history (p : PageInfo) (s : PopupState) :
    (processClickRun p s).chatHistory = [] := by
  cases p with
  | pdf u => simp [processClickRun, fetchAndProcess, addMessageToChat]
  | youtube v =>
      cases v with
      | none => simp [processClickRun, showError, updateStatus, addMessageToChat]
      | some v =>
          by_cases h : v = "" <;>
            simp [processClickRun, h, showError, updateStatus, fetchAndProcess,
              addMessageToChat]
  | webpage r =>
      cases r with
      | none => simp [processClickRun, showError, updateStatus, addMessageToChat]
      | some html => simp [processClickRun, fetchAndProcess, addMessageToChat]

lemma fetchAndProcessResponse_history (o : ProcOutcome) (s : PopupState) :
    (fetchAndProcessResponse o s).chatHistory = s.chatHistory := by
  cases o <;>
    simp [fetchAndProcessResponse, showError, updateStatus, addMessageToChat]

/-- Master shape lemma: one step either clears the history (and then the event
was a process-button click), leaves it unchanged, or appends a single human or
ai record. -/
lemma step_history_shape (e : Event) (s : PopupState) :
    ((∃ p, e = Event.processClick p) ∧ (step e s).chatHistory = []) ∨
    (step e s).chatHistory = s.chatHistory ∨
    (∃ q, (step e s).chatHistory = s.chatHistory ++ [Msg.mk "human" q]) ∨
    (∃ a, (step e s).chatHistory = s.chatHistory ++ [Msg.mk "ai" a]) := by
  cases e with
  | setInput t =>
      by_cases h : s.questionInputDisabled <;> simp [step, h]
  | askClick =>
      by_cases h : s.askButtonDisabled
      · simp [step, h]
      · by_cases hq : jsTrim s.questionInputValue = "" <;>
          simp [step, h, sendQuestion_history, hq]
  | enterKey =>
      by_cases h : s.askButtonDisabled
      · simp [step, h]
      · by_cases hq : jsTrim s.questionInputValue = "" <;>
          simp [step, h, sendQuestion_history, hq]
  | quickPrompt p =>
      by_cases h : s.quickPromptsVisible
      · by_cases hq : p = "" <;> simp [step, h, sendQuestion_history, hq]
      · simp [step, h]
  | processClick p =>
      by_cases h : s.processButtonDisabled
      · simp [step, h]
      · exact Or.inl ⟨⟨p, rfl⟩, by simp [step, h, processClickRun_history]⟩
  | askResponse o =>
      cases hp : s.pendingAsks with
      | nil => simp [step, hp]
      | cons tid rest =>
          cases o <;> simp [step, hp, sendQuestionResponse_history]
  | procResponse o =>
      cases hp : s.pendingProcs with
      | zero => simp [step, hp]
      | succ n => simp [step, hp, fetchAndProcessResponse_history]

lemma sendQuestion_pendingAsks (q : String) (s : PopupState) :
    (sendQuestion q s).pendingAsks =
      s.pendingAsks ++ (if q = "" then [] else [s.nextId + 1]) := by
  by_cases h : q = "" <;> simp [sendQuestion, h, addMessageToChat]

lemma run_cons (e : Event) (es : List Event) (s : PopupState) :
    run (e :: es) s = run es (step e s) := rfl

lemma step_preserves_historyWellFormed (e : Event) (s : PopupState)
    (h : historyWellFormed s) : historyWellFormed (step e s) := by
  rcases step_history_shape e s with ⟨_, hh⟩ | hh | ⟨q, hh⟩ | ⟨a, hh⟩ <;>
    intro m hm <;> rw [hh] at hm
  · simp at hm
  · exact h m hm
  · rcases List.mem_append.1 hm with hm | hm
    · exact h m hm
    · simp only [List.mem_singleton] at hm
      subst hm
      exact Or.inl rfl
  · rcases List.mem_append.1 hm with hm | hm
    · exact h m hm
    · simp only [List.mem_singleton] at hm
      subst hm
      exact Or.inr rfl

/-- C1: on a question send whose /ask response succeeds, exactly one human
record and one ai record are appended to the chat history, in that order, and
the history changes in no other way. -/
theorem ask_success_appends_human_then_ai (s : PopupState) (q ans : String)
    (hq : q ≠ "") (hp : s.pendingAsks = []) :
    (step (Event.askResponse (AskOutcome.answer ans))
        (sendQuestion q s)).chatHistory
      = s.chatHistory ++ [Msg.mk "human" q, Msg.mk "ai" ans] := by
  have h1 := sendQuestion_pendingAsks q s
  rw [hp, if_neg hq, List.nil_append] at h1
  simp [step, h1, sendQuestionResponse_history, sendQuestion_history, hq]

/-- Witness for C1 at a concrete send. -/
theorem ask_success_appends_human_then_ai_witness :
    (step (Event.askResponse (AskOutcome.answer "42"))
        (sendQuestion "hi" initState)).chatHistory
      = initState.chatHistory ++ [Msg.mk "human" "hi", Msg.mk "ai" "42"] :=
  ask_success_appends_human_then_ai initState "hi" "42" (by decide) rfl

/-- C2 counterexample: the record pushed for a question names its speaker
field type, not role; the serialised keys are type and content and no key
role exists. -/
theorem history_record_field_is_type_not_role :
    (sendQuestion "hi" initState).chatHistory = [Msg.mk "human" "hi"]
    ∧ jsonKeys (Msg.toJson (Msg.mk "human" "hi")) = ["type", "content"]
    ∧ "role" ∉ jsonKeys (Msg.toJson (Msg.mk "human" "hi")) := by
  refine ⟨by decide, rfl, by decide⟩

/-- C2 amended: every record held in the chat history has the shape with a
field named type valued human or ai and a string content; from any state
whose history satisfies this, any event sequence preserves it. -/
theorem history_records_typed_human_or_ai (s : PopupState) (es : List Event)
    (h : historyWellFormed s) : historyWellFormed (run es s) := by
  induction es generalizing s with
  | nil => exact h
  | cons e es ih =>
      rw [run_cons]
      exact ih _ (step_preserves_historyWellFormed e s h)

/-- Witness for the amended C2 on a concrete event sequence. -/
theorem history_records_typed_human_or_ai_witness :
    historyWellFormed (run [Event.setInput "hi", Event.askClick] initState) :=
  history_records_typed_human_or_ai initState
    [Event.setInput "hi", Event.askClick]
    (by intro m hm; simp [initState] at hm)

/-- C6: one event step changes the chat history only by appending records at
the end or by clearing it to empty, the latter only on a process-button click;
records already present are never edited. -/
theorem history_changes_only_append_or_clear (e : Event) (s : PopupState) :
    (∃ t, (step e s).chatHistory = s.chatHistory ++ t)
    ∨ ((∃ p, e = Event.processClick p) ∧ (step e s).chatHistory = []) := by
  rcases step_history_shape e s with ⟨hp, h⟩ | h | ⟨q, h⟩ | ⟨a, h⟩
  · exact Or.inr ⟨hp, h⟩
  · exact Or.inl ⟨[], by simp [h]⟩
  · exact Or.inl ⟨_, h⟩
  · exact Or.inl ⟨_, h⟩

/-- C9: on a question send whose /ask request fails (backend-reported error
or network error), the human record stays appended and no ai record is added:
the history is not rolled back. -/
theorem ask_failure_keeps_question_no_rollback (s : PopupState)
    (q err m : String) (hq : q ≠ "") (hp : s.pendingAsks = []) :
    ((step (Event.askResponse (AskOutcome.backendError err))
        (sendQuestion q s)).chatHistory = s.chatHistory ++ [Msg.mk "human" q])
    ∧ ((step (Event.askResponse (AskOutcome.networkError m))
        (sendQuestion q s)).chatHistory = s.chatHistory ++ [Msg.mk "human" q]) := by
  have h1 := sendQuestion_pendingAsks q s
  rw [hp, if_neg hq, List.nil_append] at h1
  constructor <;>
    simp [step, h1, sendQuestionResponse_history, sendQuestion_history, hq]

/-- Witness for C9 at a concrete failing send. -/
theorem ask_failure_keeps_question_no_rollback_witness :
    ((step (Event.askResponse (AskOutcome.backendError "down"))
        (sendQuestion "hi" initState)).chatHistory
          = initState.chatHistory ++ [Msg.mk "human" "hi"])
    ∧ ((step (Event.askResponse (AskOutcome.networkError "refused"))
        (sendQuestion "hi" initState)).chatHistory
          = initState.chatHistory ++ [Msg.mk "human" "hi"]) :=
  ask_failure_keeps_question_no_rollback initState "hi" "down" "refused"
    (by decide) rfl

/-- C10: sending the empty question is a no-op on the whole state, and an
ask-button click whose trimmed input is empty likewise leaves the state
unchanged. -/
theorem empty_question_is_noop (s : PopupState) :
    sendQuestion "" s = s
    ∧ (jsTrim s.questionInputValue = "" → step Event.askClick s = s) := by
  constructor
  · simp [sendQuestion]
  · intro h
    by_cases hd : s.askButtonDisabled <;> simp [step, hd, h, sendQuestion]

/-- Witness for C10 on a whitespace-only input. -/
theorem empty_question_is_noop_witness :
    sendQuestion "" initState = initState
    ∧ step Event.askClick { initState with questionInputValue := "   " }
        = { initState with questionInputValue := "   " } :=
  ⟨(empty_question_is_noop initState).1,
   (empty_question_is_noop { initState with questionInputValue := "   " }).2
     (by decide)⟩

lemma sendQuestionResponse_backendError_window (err : String) (tid : Nat)
    (s : PopupState) :
    (sendQuestionResponse (AskOutcome.backendError err) tid s).chatWindow
      = s.chatWindow.filter (fun c => c.id ≠ tid)
          ++ [⟨s.nextId, Sender.ai, "❌ Error: " ++ err⟩] := by
  simp [sendQuestionResponse, addMessageToChat]

lemma sendQuestionResponse_networkError_window (m : String) (tid : Nat)
    (s : PopupState) :
    (sendQuestionResponse (AskOutcome.networkError m) tid s).chatWindow
      = s.chatWindow.filter (fun c => c.id ≠ tid)
          ++ [⟨s.nextId, Sender.ai, "❌ Error: " ++ m⟩] := by
  simp [sendQuestionResponse, addMessageToChat]

lemma sendQuestionResponse_status (o : AskOutcome) (tid : Nat) (s : PopupState) :
    (sendQuestionResponse o tid s).statusClass = s.statusClass
    ∧ (sendQuestionResponse o tid s).statusText = s.statusText := by
  cases o <;> simp [sendQuestionResponse, addMessageToChat]

lemma sendQuestionResponse_requests (o : AskOutcome) (tid : Nat) (s : PopupState) :
    (sendQuestionResponse o tid s).requests = s.requests := by
  cases o <;> simp [sendQuestionResponse, addMessageToChat]

lemma showError_window (msg : String) (s : PopupState) :
    (showError msg s).chatWindow
      = s.chatWindow ++ [⟨s.nextId, Sender.ai, "❌ Error: " ++ msg⟩] := by
  simp [showError, updateStatus, addMessageToChat]

lemma showError_status (msg : String) (s : PopupState) :
    (showError msg s).statusClass = "status-badge error"
    ∧ (showError msg s).statusText = "Error: " ++ msg := by
  simp [showError, updateStatus, addMessageToChat]

lemma showError_requests (msg : String) (s : PopupState) :
    (showError msg s).requests = s.requests := by
  simp [showError, updateStatus, addMessageToChat]

/-- C3 counterexample: a question send failing with a backend-reported error
appends the error chat message but leaves the status badge showing ready; the
failure is not surfaced as a status-badge update. -/
theorem ask_failure_leaves_status_badge_unchanged :
    (let before := step Event.askClick (step (Event.setInput "Hi")
        (step (Event.procResponse ProcOutcome.ok)
          (step (Event.processClick (PageInfo.webpage (some "<p>"))) initState)))
     let after := step (Event.askResponse (AskOutcome.backendError "boom")) before
     after.statusClass = "status-badge ready"
     ∧ after.statusText = "Ready to answer questions!"
     ∧ after.statusClass = before.statusClass
     ∧ after.statusText = before.statusText
     ∧ ∃ c ∈ after.chatWindow,
         c.sender = Sender.ai ∧ c.text = "❌ Error: boom") := by
  decide

/-- C3 amended: every failure is surfaced as a user-visible chat message and
nothing is retried; process-flow failures (backend-reported, network, missing
YouTube video ID) additionally update the status badge to error, but
question-send failures leave the status badge unchanged. -/
theorem failure_surfacing_by_flow (s : PopupState) (err m : String)
    (ha : s.pendingAsks ≠ []) (hp : 0 < s.pendingProcs)
    (hb : s.processButtonDisabled = false) :
    (((step (Event.askResponse (AskOutcome.backendError err)) s).statusClass
          = s.statusClass
      ∧ (step (Event.askResponse (AskOutcome.backendError err)) s).statusText
          = s.statusText
      ∧ (∃ c ∈ (step (Event.askResponse (AskOutcome.backendError err)) s).chatWindow,
            c.sender = Sender.ai ∧ c.text = "❌ Error: " ++ err)
      ∧ (step (Event.askResponse (AskOutcome.backendError err)) s).requests
          = s.requests)
    ∧ ((step (Event.askResponse (AskOutcome.networkError m)) s).statusClass
          = s.statusClass
      ∧ (∃ c ∈ (step (Event.askResponse (AskOutcome.networkError m)) s).chatWindow,
            c.sender = Sender.ai ∧ c.text = "❌ Error: " ++ m)
      ∧ (step (Event.askResponse (AskOutcome.networkError m)) s).requests
          = s.requests)
    ∧ ((step (Event.procResponse (ProcOutcome.backendError err)) s).statusClass
          = "status-badge error"
      ∧ (step (Event.procResponse (ProcOutcome.backendError err)) s).statusText
          = "Error: " ++ err
      ∧ (∃ c ∈ (step (Event.procResponse (ProcOutcome.backendError err)) s).chatWindow,
            c.sender = Sender.ai ∧ c.text = "❌ Error: " ++ err)
      ∧ (step (Event.procResponse (ProcOutcome.backendError err)) s).requests
          = s.requests)
    ∧ ((step (Event.procResponse (ProcOutcome.networkError m)) s).statusClass
          = "status-badge error"
      ∧ (step (Event.procResponse (ProcOutcome.networkError m)) s).statusText
          = "Error: Cannot connect to backend server. " ++ m
      ∧ (∃ c ∈ (step (Event.procResponse (ProcOutcome.networkError m)) s).chatWindow,
            c.sender = Sender.ai
            ∧ c.text = "❌ Error: Cannot connect to backend server. " ++ m)
      ∧ (step (Event.procResponse (ProcOutcome.networkError m)) s).requests
          = s.requests)
    ∧ ((step (Event.processClick (PageInfo.youtube none)) s).statusClass
          = "status-badge error"
      ∧ (step (Event.processClick (PageInfo.youtube none)) s).statusText
          = "Error: Could not find YouTube video ID"
      ∧ (∃ c ∈ (step (Event.processClick (PageInfo.youtube none)) s).chatWindow,
            c.sender = Sender.ai
            ∧ c.text = "❌ Error: Could not find YouTube video ID")
      ∧ (step (Event.processClick (PageInfo.youtube none)) s).requests
          = s.requests)) := by
  obtain ⟨tid, rest, hpa⟩ := List.exists_cons_of_ne_nil ha
  obtain ⟨n, hn⟩ : ∃ n, s.pendingProcs = n + 1 := ⟨s.pendingProcs - 1, by omega⟩
  refine ⟨⟨?_, ?_, ?_, ?_⟩, ⟨?_, ?_, ?_⟩, ⟨?_, ?_, ?_, ?_⟩, ⟨?_, ?_, ?_, ?_⟩,
    ⟨?_, ?_, ?_, ?_⟩⟩ <;>
    simp [step, hpa, hn, hb, sendQuestionResponse_backendError_window,
      sendQuestionResponse_networkError_window, sendQuestionResponse_status,
      sendQuestionResponse_requests, fetchAndProcessResponse, showError_window,
      showError_status, showError_requests, processClickRun, showError,
      updateStatus, addMessageToChat]
  · exact ⟨⟨s.nextId, Sender.ai, "❌ Error: " ++ err⟩, Or.inr rfl, rfl, rfl⟩
  · exact ⟨⟨s.nextId, Sender.ai, "❌ Error: " ++ m⟩, Or.inr rfl, rfl, rfl⟩
  · exact ⟨⟨s.nextId, Sender.ai, "❌ Error: " ++ err⟩, Or.inr rfl, rfl, rfl⟩
  · rw [← String.append_assoc]; rfl
  · exact ⟨⟨s.nextId, Sender.ai,
        "❌ Error: " ++ ("Cannot connect to backend server. " ++ m)⟩,
      Or.inr rfl, rfl, by rw [← String.append_assoc]; rfl⟩

/-- Witness for the amended C3 at a concrete state with one pending request
of each kind. -/
theorem failure_surfacing_by_flow_witness :
    (step (Event.askResponse (AskOutcome.backendError "boom"))
        { initState with pendingAsks := [7], pendingProcs := 1 }).statusClass
      = PopupState.statusClass { initState with pendingAsks := [7], pendingProcs := 1 } :=
  (failure_surfacing_by_flow
    { initState with pendingAsks := [7], pendingProcs := 1 }
    "boom" "refused" (by decide) (by decide) (by decide)).1.1

/-- C4 counterexample: after a process request that fails, the process button
is re-enabled but the ask button and the question input remain disabled, even
though the request has completed. -/
theorem process_failure_keeps_ask_controls_disabled :
    (let s := step (Event.procResponse (ProcOutcome.backendError "x"))
        (step (Event.processClick (PageInfo.webpage (some "<p>"))) initState)
     s.pendingProcs = 0 ∧ s.pendingAsks = []
       ∧ s.askButtonDisabled = true
       ∧ s.questionInputDisabled = true
       ∧ s.processButtonDisabled = false) := by
  decide

/-- C4 amended: during a question send the ask button and question input are
disabled and re-enabled on completion regardless of outcome, but the process
button is never disabled by it; during a process request that reaches a fetch
all three controls are disabled, the process button is re-enabled on
completion regardless of outcome, and the ask controls are re-enabled only on
success. -/
theorem control_disabling_by_flow (s : PopupState) (q : String)
    (o : AskOutcome) (po : ProcOutcome) (page : PageInfo)
    (hq : q ≠ "") (ha : s.pendingAsks ≠ []) (hp : 0 < s.pendingProcs)
    (hb : s.processButtonDisabled = false)
    (hpf : pageStartsFetch page = true) :
    ((sendQuestion q s).askButtonDisabled = true
      ∧ (sendQuestion q s).questionInputDisabled = true
      ∧ (sendQuestion q s).processButtonDisabled = s.processButtonDisabled)
    ∧ ((step (Event.askResponse o) s).askButtonDisabled = false
      ∧ (step (Event.askResponse o) s).questionInputDisabled = false)
    ∧ ((step (Event.processClick page) s).askButtonDisabled = true
      ∧ (step (Event.processClick page) s).questionInputDisabled = true
      ∧ (step (Event.processClick page) s).processButtonDisabled = true)
    ∧ ((step (Event.procResponse po) s).processButtonDisabled = false
      ∧ (po = ProcOutcome.ok →
          (step (Event.procResponse po) s).askButtonDisabled = false
          ∧ (step (Event.procResponse po) s).questionInputDisabled = false)
      ∧ (po ≠ ProcOutcome.ok →
          (step (Event.procResponse po) s).askButtonDisabled
              = s.askButtonDisabled
          ∧ (step (Event.procResponse po) s).questionInputDisabled
              = s.questionInputDisabled)) := by
  obtain ⟨tid, rest, hpa⟩ := List.exists_cons_of_ne_nil ha
  obtain ⟨n, hn⟩ : ∃ n, s.pendingProcs = n + 1 := ⟨s.pendingProcs - 1, by omega⟩
  constructor
  · simp [sendQuestion, hq, addMessageToChat]
  constructor
  · cases o <;> simp [step, hpa, sendQuestionResponse, addMessageToChat]
  constructor
  · cases page with
    | pdf u => simp [step, hb, processClickRun, fetchAndProcess, addMessageToChat]
    | youtube v =>
        cases v with
        | none => simp [pageStartsFetch] at hpf
        | some v =>
            simp [pageStartsFetch] at hpf
            simp [step, hb, processClickRun, fetchAndProcess, addMessageToChat, hpf]
    | webpage w =>
        cases w with
        | none => simp [pageStartsFetch] at hpf
        | some html =>
            simp [step, hb, processClickRun, fetchAndProcess, addMessageToChat]
  · refine ⟨?_, ?_, ?_⟩
    · cases po <;>
        simp [step, hn, fetchAndProcessResponse, showError, updateStatus,
          addMessageToChat]
    · intro hpo
      subst hpo
      simp [step, hn, fetchAndProcessResponse, updateStatus, addMessageToChat]
    · intro hpo
      cases po with
      | ok => exact absurd rfl hpo
      | backendError e =>
          simp [step, hn, fetchAndProcessResponse, showError, updateStatus,
            addMessageToChat]
      | networkError e =>
          simp [step, hn, fetchAndProcessResponse, showError, updateStatus,
            addMessageToChat]

/-- Witness for the amended C4 at a concrete state and send. -/
theorem control_disabling_by_flow_witness :
    (sendQuestion "hi"
        { initState with pendingAsks := [3], pendingProcs := 1 }).askButtonDisabled
      = true :=
  (control_disabling_by_flow
    { initState with pendingAsks := [3], pendingProcs := 1 }
    "hi" (AskOutcome.answer "a") ProcOutcome.ok (PageInfo.pdf "x.pdf")
    (by decide) (by decide) (by decide) (by decide) (by decide)).1.1

/-- C5 counterexample: with one /ask request already pending after an
ask-button click, a quick-prompt click starts a second request, so two
user-initiated network requests are in flight at once. -/
theorem quick_prompt_starts_second_inflight_request :
    (let s1 := step Event.askClick (step (Event.setInput "Hi")
        (step (Event.procResponse ProcOutcome.ok)
          (step (Event.processClick (PageInfo.webpage (some "<p>"))) initState)))
     let s2 := step (Event.quickPrompt "Summarize this page") s1
     inFlight s1 = 1 ∧ inFlight s2 = 2 ∧ s2.requests.length = 3) := by
  decide

lemma sendQuestion_pendingProcs (q : String) (s : PopupState) :
    (sendQuestion q s).pendingProcs = s.pendingProcs := by
  by_cases h : q = "" <;> simp [sendQuestion, h, addMessageToChat]

lemma sendQuestion_inFlight (q : String) (s : PopupState) :
    inFlight (sendQuestion q s) ≤ inFlight s + 1 := by
  by_cases h : q = ""
  · rw [h]
    have he : sendQuestion "" s = s := by simp [sendQuestion]
    rw [he]
    omega
  · have h1 := sendQuestion_pendingAsks q s
    rw [if_neg h] at h1
    have h2 := sendQuestion_pendingProcs q s
    simp only [inFlight, h1, h2, List.length_append, List.length_singleton]
    omega

lemma processClickRun_pendingAsks (p : PageInfo) (s : PopupState) :
    (processClickRun p s).pendingAsks = s.pendingAsks := by
  cases p with
  | pdf u => simp [processClickRun, fetchAndProcess, updateStatus, addMessageToChat]
  | youtube v =>
      cases v with
      | none => simp [processClickRun, showError, updateStatus, addMessageToChat]
      | some v =>
          by_cases h : v = "" <;>
            simp [processClickRun, h, showError, updateStatus, fetchAndProcess,
              addMessageToChat]
  | webpage w =>
      cases w with
      | none => simp [processClickRun, showError, updateStatus, addMessageToChat]
      | some html =>
          simp [processClickRun, fetchAndProcess, updateStatus, addMessageToChat]

lemma processClickRun_pendingProcs_le (p : PageInfo) (s : PopupState) :
    (processClickRun p s).pendingProcs ≤ s.pendingProcs + 1 := by
  cases p with
  | pdf u => simp [processClickRun, fetchAndProcess, updateStatus, addMessageToChat]
  | youtube v =>
      cases v with
      | none =>
          simp [processClickRun, showError, updateStatus, addMessageToChat]
      | some v =>
          by_cases h : v = "" <;>
            simp [processClickRun, h, showError, updateStatus, fetchAndProcess,
              addMessageToChat]
  | webpage w =>
      cases w with
      | none =>
          simp [processClickRun, showError, updateStatus, addMessageToChat]
      | some html =>
          simp [processClickRun, fetchAndProcess, updateStatus, addMessageToChat]

lemma sendQuestionResponse_pendings (o : AskOutcome) (tid : Nat)
    (s : PopupState) :
    (sendQuestionResponse o tid s).pendingAsks = s.pendingAsks
    ∧ (sendQuestionResponse o tid s).pendingProcs = s.pendingProcs := by
  cases o <;> simp [sendQuestionResponse, addMessageToChat]

lemma fetchAndProcessResponse_pendings (o : ProcOutcome) (s : PopupState) :
    (fetchAndProcessResponse o s).pendingAsks = s.pendingAsks
    ∧ (fetchAndProcessResponse o s).pendingProcs = s.pendingProcs := by
  cases o <;>
    simp [fetchAndProcessResponse, showError, updateStatus, addMessageToChat]

/-- C5 amended: no single user event ever starts more than one network
request, but the code does not enforce a single in-flight request overall: a
quick-prompt or process click can start a second request while an /ask is
pending. -/
theorem each_event_starts_at_most_one_request (e : Event) (s : PopupState) :
    inFlight (step e s) ≤ inFlight s + 1 := by
  cases e with
  | setInput tx =>
      by_cases h : s.questionInputDisabled <;> simp [step, h, inFlight]
  | askClick =>
      by_cases h : s.askButtonDisabled
      · simp [step, h]
      · simpa [step, h] using
          sendQuestion_inFlight (jsTrim s.questionInputValue) s
  | enterKey =>
      by_cases h : s.askButtonDisabled
      · simp [step, h]
      · simpa [step, h] using
          sendQuestion_inFlight (jsTrim s.questionInputValue) s
  | quickPrompt p =>
      by_cases h : s.quickPromptsVisible
      · simpa [step, h] using sendQuestion_inFlight p s
      · simp [step, h]
  | processClick page =>
      by_cases h : s.processButtonDisabled
      · simp [step, h]
      · have h1 := processClickRun_pendingAsks page s
        have h2 := processClickRun_pendingProcs_le page s
        simp only [step, if_neg h, inFlight, h1]
        omega
  | askResponse o =>
      cases hpa : s.pendingAsks with
      | nil => simp [step, hpa]
      | cons tid rest =>
          have h1 := sendQuestionResponse_pendings o tid
            { s with pendingAsks := rest }
          simp only [step, hpa, inFlight, h1.1, h1.2]
          simp
          omega
  | procResponse o =>
      cases hn : s.pendingProcs with
      | zero => simp [step, hn]
      | succ n =>
          have h1 := fetchAndProcessResponse_pendings o
            { s with pendingProcs := n }
          simp only [step, hn, inFlight, h1.1, h1.2]
          simp
          omega

lemma sendQuestion_requests_good (q : String) (s : PopupState) :
    ∃ t, (sendQuestion q s).requests = s.requests ++ t
      ∧ ∀ r ∈ t, goodRequest r := by
  by_cases h : q = ""
  · exact ⟨[], by simp [sendQuestion, h], by simp⟩
  · refine ⟨[⟨baseUrl ++ "/ask",
      Json.obj [("question", Json.str q),
        ("history",
          Json.arr ((s.chatHistory ++ [Msg.mk "human" q]).map Msg.toJson))]⟩],
      ?_, ?_⟩
    · simp [sendQuestion, h, addMessageToChat]
    · intro r hr
      simp only [List.mem_singleton] at hr
      subst hr
      exact Or.inl ⟨q, s.chatHistory ++ [Msg.mk "human" q], rfl⟩

lemma processClickRun_requests_good (p : PageInfo) (s : PopupState) :
    ∃ t, (processClickRun p s).requests = s.requests ++ t
      ∧ ∀ r ∈ t, goodRequest r := by
  cases p with
  | pdf u =>
      refine ⟨[⟨baseUrl ++ "/process_pdf",
        Json.obj [("pdf_url", Json.str u)]⟩], ?_, ?_⟩
      · simp [processClickRun, fetchAndProcess, updateStatus, addMessageToChat]
      · intro r hr
        simp only [List.mem_singleton] at hr
        subst hr
        exact Or.inr (Or.inl ⟨u, rfl⟩)
  | youtube v =>
      cases v with
      | none =>
          exact ⟨[],
            by simp [processClickRun, showError, updateStatus, addMessageToChat],
            by simp⟩
      | some v =>
          by_cases h : v = ""
          · exact ⟨[],
              by simp [processClickRun, h, showError, updateStatus,
                addMessageToChat],
              by simp⟩
          · refine ⟨[⟨baseUrl ++ "/process_youtube",
              Json.obj [("videoId", Json.str v)]⟩], ?_, ?_⟩
            · simp [processClickRun, h, fetchAndProcess, updateStatus,
                addMessageToChat]
            · intro r hr
              simp only [List.mem_singleton] at hr
              subst hr
              exact Or.inr (Or.inr (Or.inl ⟨v, rfl⟩))
  | webpage w =>
      cases w with
      | none =>
          exact ⟨[],
            by simp [processClickRun, showError, updateStatus, addMessageToChat],
            by simp⟩
      | some html =>
          refine ⟨[⟨baseUrl ++ "/process_webpage",
            Json.obj [("content", Json.str html)]⟩], ?_, ?_⟩
          · simp [processClickRun, fetchAndProcess, updateStatus,
              addMessageToChat]
          · intro r hr
            simp only [List.mem_singleton] at hr
            subst hr
            exact Or.inr (Or.inr (Or.inr ⟨html, rfl⟩))

lemma fetchAndProcessResponse_requests (o : ProcOutcome) (s : PopupState) :
    (fetchAndProcessResponse o s).requests = s.requests := by
  cases o <;>
    simp [fetchAndProcessResponse, showError, updateStatus, addMessageToChat]

/-- C7: every request any event can issue goes to one of the four fixed
endpoints under the base URL with the matching JSON body: POST /ask with
question and history, POST /process_pdf with pdf_url, POST /process_youtube
with videoId, POST /process_webpage with content. -/
theorem requests_only_documented_endpoints (e : Event) (s : PopupState) :
    ∃ t, (step e s).requests = s.requests ++ t ∧ ∀ r ∈ t, goodRequest r := by
  cases e with
  | setInput tx =>
      by_cases h : s.questionInputDisabled <;>
        exact ⟨[], by simp [step, h], by simp⟩
  | askClick =>
      by_cases h : s.askButtonDisabled
      · exact ⟨[], by simp [step, h], by simp⟩
      · have hg := sendQuestion_requests_good (jsTrim s.questionInputValue) s
        simpa [step, h] using hg
  | enterKey =>
      by_cases h : s.askButtonDisabled
      · exact ⟨[], by simp [step, h], by simp⟩
      · have hg := sendQuestion_requests_good (jsTrim s.questionInputValue) s
        simpa [step, h] using hg
  | quickPrompt p =>
      by_cases h : s.quickPromptsVisible
      · have hg := sendQuestion_requests_good p s
        simpa [step, h] using hg
      · exact ⟨[], by simp [step, h], by simp⟩
  | processClick page =>
      by_cases h : s.processButtonDisabled
      · exact ⟨[], by simp [step, h], by simp⟩
      · have hg := processClickRun_requests_good page s
        simpa [step, h] using hg
  | askResponse o =>
      refine ⟨[], ?_, by simp⟩
      cases hpa : s.pendingAsks with
      | nil => simp [step, hpa]
      | cons tid rest => simp [step, hpa, sendQuestionResponse_requests]
  | procResponse o =>
      refine ⟨[], ?_, by simp⟩
      cases hn : s.pendingProcs with
      | zero => simp [step, hn]
      | succ n => simp [step, hn, fetchAndProcessResponse_requests]

/-- Witness for C7 at a concrete event and state. -/
theorem requests_only_documented_endpoints_witness :
    ∃ t, (step (Event.processClick (PageInfo.pdf "a.pdf")) initState).requests
        = initState.requests ++ t ∧ ∀ r ∈ t, goodRequest r :=
  requests_only_documented_endpoints
    (Event.processClick (PageInfo.pdf "a.pdf")) initState

lemma themeToggle_keeps_light_dark (t : ThemeState)
    (h : t.currentTheme = "light" ∨ t.currentTheme = "dark") :
    (themeToggle t).currentTheme = "light"
    ∨ (themeToggle t).currentTheme = "dark" := by
  rcases h with h | h <;> simp [themeToggle, h]

lemma themeAfterToggles_light_dark (n : Nat) (t : ThemeState)
    (h : t.currentTheme = "light" ∨ t.currentTheme = "dark") :
    (themeAfterToggles n t).currentTheme = "light"
    ∨ (themeAfterToggles n t).currentTheme = "dark" := by
  induction n generalizing t with
  | zero => exact h
  | succ n ih => exact ih (themeToggle t) (themeToggle_keeps_light_dark t h)

/-- C8: the theme is loaded at startup, defaulting to light when nothing is
stored; each toggle flips light to dark and dark to light and persists the
new value; starting from an absent or program-written stored value, the
current theme is always light or dark, across any number of toggles. -/
theorem theme_light_dark_persisted (stored : Option String)
    (h : stored = none ∨ stored = some "light" ∨ stored = some "dark") :
    ((themeStartup stored).currentTheme = "light"
        ∨ (themeStartup stored).currentTheme = "dark")
    ∧ (stored = none → (themeStartup stored).currentTheme = "light")
    ∧ (∀ t : ThemeState, t.currentTheme = "light" →
          themeToggle t = ⟨"dark", some "dark"⟩)
    ∧ (∀ t : ThemeState, t.currentTheme = "dark" →
          themeToggle t = ⟨"light", some "light"⟩)
    ∧ (∀ t : ThemeState,
          (themeToggle t).storedTheme = some (themeToggle t).currentTheme)
    ∧ (∀ n : Nat,
          (themeAfterToggles n (themeStartup stored)).currentTheme = "light"
          ∨ (themeAfterToggles n (themeStartup stored)).currentTheme = "dark") := by
  refine ⟨?_, ?_, ?_, ?_, ?_, ?_⟩
  · rcases h with h | h | h <;> subst h <;> simp [themeStartup, loadTheme]
  · intro hn
    subst hn
    simp [themeStartup, loadTheme]
  · intro t ht
    simp [themeToggle, ht]
  · intro t ht
    simp [themeToggle, ht]
  · intro t
    simp [themeToggle]
  · intro n
    refine themeAfterToggles_light_dark n (themeStartup stored) ?_
    rcases h with h | h | h <;> subst h <;> simp [themeStartup, loadTheme]

/-- Witness for C8 with no stored theme. -/
theorem theme_light_dark_persisted_witness :
    (themeStartup none).currentTheme = "light"
    ∨ (themeStartup none).currentTheme = "dark" :=
  (theme_light_dark_persisted none (Or.inl rfl)).1
